import Mathlib

/-!
Shallow embedding of the bank-account bookkeeping core of `src/main.py`.

Mutation of `self` is modelled by state passing: each method takes the
account and returns the updated account.  Python's `uuid.uuid4()` and
`datetime.now(timezone.utc)` are external sources of fresh values; they are
modelled as explicit `Nat` parameters (`fresh_id`, `tstamp`) supplied by the
environment.  Python `int` is unbounded, so balances and amounts are `Int`.
`print` calls are pure I/O and carry no state, so they are dropped.
-/

/-- Embeds `Transaction.__init__` (src/main.py lines 6-24): an immutable
record of one operation attempt. -/
structure Transaction where
  id : Nat
  t_type : String
  sender_name : Option String
  receiver_name : Option String
  amount : Int
  status : String
  timestamp : Nat
  deriving DecidableEq, Repr

/-- Embeds the `BankAccount` attribute set (src/main.py lines 30-45). -/
structure BankAccount where
  id : Nat
  name : String
  account_number : String
  balance : Int
  created_at : Nat
  transactions : List Transaction
  is_closed : Bool
  deriving DecidableEq, Repr

/-- Embeds `BankAccount.__init__` (src/main.py lines 31-45): sets the given
fields, an empty transaction list and `is_closed = False`, with no
validation of `balance`. -/
def BankAccount.make (id : Nat) (name account_number : String) (balance : Int)
    (created_at : Nat) : BankAccount :=
  { id := id
    name := name
    account_number := account_number
    balance := balance
    created_at := created_at
    transactions := []
    is_closed := false }

/-- Embeds `BankAccount.record_transaction` (src/main.py lines 51-69):
builds a transaction from a fresh id and the current timestamp, appends it
to the log, and returns it. -/
def BankAccount.record_transaction (acc : BankAccount) (t_type : String)
    (sender_name receiver_name : Option String) (amount : Int) (status : String)
    (fresh_id tstamp : Nat) : BankAccount × Transaction :=
  let t : Transaction :=
    { id := fresh_id
      t_type := t_type
      sender_name := sender_name
      receiver_name := receiver_name
      amount := amount
      status := status
      timestamp := tstamp }
  ({ acc with transactions := acc.transactions ++ [t] }, t)

/-- Embeds `BankAccount.deposit` (src/main.py lines 71-81). -/
def BankAccount.deposit (acc : BankAccount) (amount : Int)
    (fresh_id tstamp : Nat) : BankAccount :=
  if acc.is_closed then
    acc
  else if amount ≤ 0 then
    (acc.record_transaction "deposit" none (some acc.name) amount "failed"
      fresh_id tstamp).1
  else
    let acc2 := { acc with balance := acc.balance + amount }
    (acc2.record_transaction "deposit" none (some acc2.name) amount "completed"
      fresh_id tstamp).1

/-- Embeds `BankAccount.withdraw` (src/main.py lines 83-97). -/
def BankAccount.withdraw (acc : BankAccount) (amount : Int)
    (fresh_id tstamp : Nat) : BankAccount :=
  if acc.is_closed then
    acc
  else if amount ≤ 0 then
    (acc.record_transaction "withdraw" (some acc.name) none amount "failed"
      fresh_id tstamp).1
  else if acc.balance < amount then
    (acc.record_transaction "withdraw" (some acc.name) none amount "failed"
      fresh_id tstamp).1
  else
    let acc2 := { acc with balance := acc.balance - amount }
    (acc2.record_transaction "withdraw" (some acc2.name) none amount "completed"
      fresh_id tstamp).1

/-- Embeds `BankAccount.close_account` (src/main.py lines 108-116): records
a completed close transaction carrying the pre-close balance and pre-close
name, then zeroes the balance, sets the closed flag, and appends the
closure marker to the name. -/
def BankAccount.close_account (acc : BankAccount)
    (fresh_id tstamp : Nat) : BankAccount :=
  if acc.is_closed then
    acc
  else
    let acc2 := (acc.record_transaction "close" (some acc.name) none acc.balance
      "completed" fresh_id tstamp).1
    { acc2 with
      balance := 0
      is_closed := true
      name := acc2.name ++ " (Closed)" }

/-- Embeds the state-changing part of `create_account` (src/main.py lines
138-156): constructs the account from the user-supplied fields and, when
the initial balance is strictly positive, records one completed deposit
transaction for it.  Prompting, input parsing and the global registry
append are I/O glue outside the bookkeeping state of a single account. -/
def create_account (id : Nat) (name account_number : String) (balance : Int)
    (created_at fresh_id tstamp : Nat) : BankAccount :=
  let acc := BankAccount.make id name account_number balance created_at
  if 0 < balance then
    (acc.record_transaction "deposit" none (some acc.name) balance "completed"
      fresh_id tstamp).1
  else
    acc

/-- One balance-affecting operation as dispatched by the menu loop, with the
fresh id and timestamp the environment supplies to `record_transaction`. -/
inductive Op where
  | deposit (amount : Int) (fresh_id tstamp : Nat)
  | withdraw (amount : Int) (fresh_id tstamp : Nat)
  | close (fresh_id tstamp : Nat)
  deriving DecidableEq, Repr

/-- Applies one operation to an account. -/
def apply_op (acc : BankAccount) (op : Op) : BankAccount :=
  match op with
  | Op.deposit a i t => acc.deposit a i t
  | Op.withdraw a i t => acc.withdraw a i t
  | Op.close i t => acc.close_account i t

/-- Applies a sequence of operations in order. -/
def run_ops (acc : BankAccount) (ops : List Op) : BankAccount :=
  ops.foldl apply_op acc

/-- Helper: `record_transaction` appends exactly the built transaction at
the end of the log. -/
theorem record_tx_transactions (acc : BankAccount) (t_type : String)
    (sender_name receiver_name : Option String) (amount : Int) (status : String)
    (fresh_id tstamp : Nat) :
    (acc.record_transaction t_type sender_name receiver_name amount status
      fresh_id tstamp).1.transactions =
      acc.transactions ++
        [⟨fresh_id, t_type, sender_name, receiver_name, amount, status, tstamp⟩] :=
  rfl

/-- Claim C2: depositing a positive amount into an open account adds
exactly that amount to the balance and appends exactly one completed
deposit transaction with that amount, receiver the account holder name and
no sender. -/
theorem deposit_positive_open_spec (acc : BankAccount) (amount : Int)
    (fresh_id tstamp : Nat) (hopen : acc.is_closed = false) (hpos : 0 < amount) :
    (acc.deposit amount fresh_id tstamp).balance = acc.balance + amount ∧
    (acc.deposit amount fresh_id tstamp).transactions =
      acc.transactions ++
        [⟨fresh_id, "deposit", none, some acc.name, amount, "completed", tstamp⟩] := by
  have hnle : ¬ amount ≤ 0 := not_le.mpr hpos
  simp [BankAccount.deposit, BankAccount.record_transaction, hopen, hnle]

/-- Concrete instance of `deposit_positive_open_spec`: depositing 5 into an
open account with balance 10. -/
theorem deposit_positive_open_spec_witness :
    ((BankAccount.make 0 "Alice" "N1" 10 0).deposit 5 1 2).balance =
      (BankAccount.make 0 "Alice" "N1" 10 0).balance + 5 ∧
    ((BankAccount.make 0 "Alice" "N1" 10 0).deposit 5 1 2).transactions =
      (BankAccount.make 0 "Alice" "N1" 10 0).transactions ++
        [⟨1, "deposit", none, some "Alice", 5, "completed", 2⟩] :=
  deposit_positive_open_spec (BankAccount.make 0 "Alice" "N1" 10 0) 5 1 2 rfl
    (by decide)

/-- Claim C3: on an open account, withdrawing an amount with
`0 < amount ≤ balance` subtracts exactly that amount and appends one
completed withdraw transaction (sender the holder, no receiver); withdrawing
an amount greater than the balance leaves the balance unchanged and appends
one failed transaction. -/
theorem withdraw_spec (acc : BankAccount) (amount : Int) (fresh_id tstamp : Nat)
    (hopen : acc.is_closed = false) :
    (0 < amount → amount ≤ acc.balance →
      (acc.withdraw amount fresh_id tstamp).balance = acc.balance - amount ∧
      (acc.withdraw amount fresh_id tstamp).transactions =
        acc.transactions ++
          [⟨fresh_id, "withdraw", some acc.name, none, amount, "completed",
            tstamp⟩]) ∧
    (acc.balance < amount →
      (acc.withdraw amount fresh_id tstamp).balance = acc.balance ∧
      (acc.withdraw amount fresh_id tstamp).transactions =
        acc.transactions ++
          [⟨fresh_id, "withdraw", some acc.name, none, amount, "failed",
            tstamp⟩]) := by
  constructor
  · intro hpos hle
    have hnle : ¬ amount ≤ 0 := not_le.mpr hpos
    have hnlt : ¬ acc.balance < amount := not_lt.mpr hle
    simp [BankAccount.withdraw, BankAccount.record_transaction, hopen, hnle, hnlt]
  · intro hgt
    by_cases hnp : amount ≤ 0
    · simp [BankAccount.withdraw, BankAccount.record_transaction, hopen, hnp]
    · simp [BankAccount.withdraw, BankAccount.record_transaction, hopen, hnp, hgt]

/-- Concrete instance of `withdraw_spec`: on an open account with balance
10, withdrawing 4 succeeds with new balance 6, withdrawing 20 fails and
leaves the balance at 10. -/
theorem withdraw_spec_witness :
    ((BankAccount.make 0 "Alice" "N1" 10 0).withdraw 4 1 2).balance = 6 ∧
    ((BankAccount.make 0 "Alice" "N1" 10 0).withdraw 20 1 2).balance = 10 := by
  have h1 := (withdraw_spec (BankAccount.make 0 "Alice" "N1" 10 0) 4 1 2 rfl).1
    (by decide) (by decide)
  have h2 := (withdraw_spec (BankAccount.make 0 "Alice" "N1" 10 0) 20 1 2 rfl).2
    (by decide)
  exact ⟨by rw [h1.1]; rfl, by rw [h2.1]; rfl⟩

/-- Claim C6 counterexample: on a concrete closed account, a deposit
attempt appends no transaction at all, so in particular no failed
transaction is logged (the number of transactions does not grow by one),
contradicting the claim. -/
theorem deposit_closed_logs_nothing :
    ¬ (List.length
        (BankAccount.transactions
          (((BankAccount.make 0 "Alice" "N1" 0 0).close_account 1 1).deposit 5 2 2)) =
      List.length
        (BankAccount.transactions
          ((BankAccount.make 0 "Alice" "N1" 0 0).close_account 1 1)) + 1) := by
  decide

/-- Claim C6 (amended): a deposit attempt on a closed account is a complete
no-op: the balance is unchanged and no transaction of any status is
appended (the whole state is returned unchanged). -/
theorem deposit_closed_noop (acc : BankAccount) (amount : Int)
    (fresh_id tstamp : Nat) (h : acc.is_closed = true) :
    acc.deposit amount fresh_id tstamp = acc := by
  simp [BankAccount.deposit, h]

/-- Concrete instance of `deposit_closed_noop` on a freshly closed
account. -/
theorem deposit_closed_noop_witness :
    ((BankAccount.make 0 "Alice" "N1" 0 0).close_account 1 1).deposit 5 2 2 =
      (BankAccount.make 0 "Alice" "N1" 0 0).close_account 1 1 :=
  deposit_closed_noop ((BankAccount.make 0 "Alice" "N1" 0 0).close_account 1 1)
    5 2 2 (by decide)

/-- Claim C7: on an open account, a non-positive amount makes both deposit
and withdraw leave the balance unchanged and append exactly one failed
transaction; both operations are total functions of the state, so no error
is raised or propagated — the failure is visible only in the logged
transaction's status. -/
theorem nonpositive_amount_fails (acc : BankAccount) (amount : Int)
    (fresh_id tstamp : Nat) (hopen : acc.is_closed = false) (hnp : amount ≤ 0) :
    (acc.deposit amount fresh_id tstamp).balance = acc.balance ∧
    (acc.deposit amount fresh_id tstamp).transactions =
      acc.transactions ++
        [⟨fresh_id, "deposit", none, some acc.name, amount, "failed", tstamp⟩] ∧
    (acc.withdraw amount fresh_id tstamp).balance = acc.balance ∧
    (acc.withdraw amount fresh_id tstamp).transactions =
      acc.transactions ++
        [⟨fresh_id, "withdraw", some acc.name, none, amount, "failed",
          tstamp⟩] := by
  simp [BankAccount.deposit, BankAccount.withdraw, BankAccount.record_transaction,
    hopen, hnp]

/-- Concrete instance of `nonpositive_amount_fails` with amount -3 on an
open account with balance 10. -/
theorem nonpositive_amount_fails_witness :
    ((BankAccount.make 0 "Alice" "N1" 10 0).deposit (-3) 1 2).balance =
      (BankAccount.make 0 "Alice" "N1" 10 0).balance ∧
    ((BankAccount.make 0 "Alice" "N1" 10 0).deposit (-3) 1 2).transactions =
      (BankAccount.make 0 "Alice" "N1" 10 0).transactions ++
        [⟨1, "deposit", none, some "Alice", -3, "failed", 2⟩] ∧
    ((BankAccount.make 0 "Alice" "N1" 10 0).withdraw (-3) 1 2).balance =
      (BankAccount.make 0 "Alice" "N1" 10 0).balance ∧
    ((BankAccount.make 0 "Alice" "N1" 10 0).withdraw (-3) 1 2).transactions =
      (BankAccount.make 0 "Alice" "N1" 10 0).transactions ++
        [⟨1, "withdraw", some "Alice", none, -3, "failed", 2⟩] :=
  nonpositive_amount_fails (BankAccount.make 0 "Alice" "N1" 10 0) (-3) 1 2 rfl
    (by decide)

/-- Claim C4: closing an open account appends exactly one completed close
transaction whose amount is the pre-close balance (with the pre-close name
as sender), zeroes the balance, sets the closed flag and appends the
closure marker to the name; closing an already closed account returns the
state unchanged (no transaction, no state change). -/
theorem close_account_spec (acc : BankAccount) (fresh_id tstamp : Nat) :
    (acc.is_closed = false →
      (acc.close_account fresh_id tstamp).balance = 0 ∧
      (acc.close_account fresh_id tstamp).is_closed = true ∧
      (acc.close_account fresh_id tstamp).name = acc.name ++ " (Closed)" ∧
      (acc.close_account fresh_id tstamp).transactions =
        acc.transactions ++
          [⟨fresh_id, "close", some acc.name, none, acc.balance, "completed",
            tstamp⟩]) ∧
    (acc.is_closed = true → acc.close_account fresh_id tstamp = acc) := by
  constructor
  · intro h
    simp [BankAccount.close_account, BankAccount.record_transaction, h]
  · intro h
    simp [BankAccount.close_account, h]

/-- Concrete instance of `close_account_spec`: closing an open account with
balance 25. -/
theorem close_account_spec_witness :
    ((BankAccount.make 0 "Alice" "N1" 25 0).close_account 1 2).balance = 0 ∧
    ((BankAccount.make 0 "Alice" "N1" 25 0).close_account 1 2).is_closed = true ∧
    ((BankAccount.make 0 "Alice" "N1" 25 0).close_account 1 2).name =
      "Alice (Closed)" ∧
    ((BankAccount.make 0 "Alice" "N1" 25 0).close_account 1 2).transactions =
      [⟨1, "close", some "Alice", none, 25, "completed", 2⟩] := by
  have h := (close_account_spec (BankAccount.make 0 "Alice" "N1" 25 0) 1 2).1 rfl
  exact ⟨h.1, h.2.1, h.2.2.1, h.2.2.2⟩

/-- Claim C8: every operation either leaves the transaction log unchanged
or appends exactly one transaction at the end (the old log is always a
prefix of the new log), and `record_transaction` itself appends exactly the
transaction it builds; hence the log order is creation order and entries
are never modified, reordered or removed. -/
theorem log_append_only (acc : BankAccount) (op : Op) (t_type : String)
    (sender_name receiver_name : Option String) (amount : Int) (status : String)
    (fresh_id tstamp : Nat) :
    (∃ new, (apply_op acc op).transactions = acc.transactions ++ new ∧
      new.length ≤ 1) ∧
    (acc.record_transaction t_type sender_name receiver_name amount status
      fresh_id tstamp).1.transactions =
      acc.transactions ++
        [⟨fresh_id, t_type, sender_name, receiver_name, amount, status,
          tstamp⟩] := by
  refine ⟨?_, rfl⟩
  cases op with
  | deposit a i t =>
    by_cases h1 : acc.is_closed = true
    · exact ⟨[], by simp [apply_op, BankAccount.deposit, h1], by simp⟩
    · by_cases h2 : a ≤ 0
      · exact ⟨[⟨i, "deposit", none, some acc.name, a, "failed", t⟩],
          by simp [apply_op, BankAccount.deposit, BankAccount.record_transaction,
            h1, h2], by simp⟩
      · exact ⟨[⟨i, "deposit", none, some acc.name, a, "completed", t⟩],
          by simp [apply_op, BankAccount.deposit, BankAccount.record_transaction,
            h1, h2], by simp⟩
  | withdraw a i t =>
    by_cases h1 : acc.is_closed = true
    · exact ⟨[], by simp [apply_op, BankAccount.withdraw, h1], by simp⟩
    · by_cases h2 : a ≤ 0
      · exact ⟨[⟨i, "withdraw", some acc.name, none, a, "failed", t⟩],
          by simp [apply_op, BankAccount.withdraw, BankAccount.record_transaction,
            h1, h2], by simp⟩
      · by_cases h3 : acc.balance < a
        · exact ⟨[⟨i, "withdraw", some acc.name, none, a, "failed", t⟩],
            by simp [apply_op, BankAccount.withdraw,
              BankAccount.record_transaction, h1, h2, h3], by simp⟩
        · exact ⟨[⟨i, "withdraw", some acc.name, none, a, "completed", t⟩],
            by simp [apply_op, BankAccount.withdraw,
              BankAccount.record_transaction, h1, h2, h3], by simp⟩
  | close i t =>
    by_cases h1 : acc.is_closed = true
    · exact ⟨[], by simp [apply_op, BankAccount.close_account, h1], by simp⟩
    · exact ⟨[⟨i, "close", some acc.name, none, acc.balance, "completed", t⟩],
        by simp [apply_op, BankAccount.close_account,
          BankAccount.record_transaction, h1], by simp⟩

/-- Claim C9: account construction validates nothing: any initial balance
(including a negative one) yields an open account with exactly that balance;
the transaction log stays empty when the initial balance is non-positive,
and holds exactly one completed deposit transaction when it is strictly
positive. -/
theorem create_account_spec (id : Nat) (name account_number : String)
    (balance : Int) (created_at fresh_id tstamp : Nat) :
    (create_account id name account_number balance created_at fresh_id
      tstamp).is_closed = false ∧
    (create_account id name account_number balance created_at fresh_id
      tstamp).balance = balance ∧
    (balance ≤ 0 →
      (create_account id name account_number balance created_at fresh_id
        tstamp).transactions = []) ∧
    (0 < balance →
      (create_account id name account_number balance created_at fresh_id
        tstamp).transactions =
        [⟨fresh_id, "deposit", none, some name, balance, "completed",
          tstamp⟩]) := by
  refine ⟨?_, ?_, ?_, ?_⟩
  · unfold create_account
    split <;> rfl
  · unfold create_account
    split <;> rfl
  · intro h
    have hnp : ¬ 0 < balance := not_lt.mpr h
    simp [create_account, hnp, BankAccount.make]
  · intro h
    simp [create_account, h, BankAccount.make, BankAccount.record_transaction]

/-- Concrete instances of `create_account_spec`: a negative initial balance
(-5) gives an open account with balance -5 and an empty log; a positive
initial balance (7) logs one completed deposit transaction. -/
theorem create_account_spec_witness :
    (create_account 0 "Bob" "N2" (-5) 0 1 2).is_closed = false ∧
    (create_account 0 "Bob" "N2" (-5) 0 1 2).balance = -5 ∧
    (create_account 0 "Bob" "N2" (-5) 0 1 2).transactions = [] ∧
    (create_account 0 "Bob" "N2" 7 0 1 2).transactions =
      [⟨1, "deposit", none, some "Bob", 7, "completed", 2⟩] := by
  have h1 := create_account_spec 0 "Bob" "N2" (-5) 0 1 2
  have h2 := create_account_spec 0 "Bob" "N2" 7 0 1 2
  exact ⟨h1.1, h1.2.1, h1.2.2.1 (by decide), h2.2.2.2 (by decide)⟩

/-- Claim C10: deposit and withdraw never change the identifier, name,
account number, creation timestamp or closed flag; close never changes the
identifier, account number or creation timestamp. -/
theorem ops_frame (acc : BankAccount) (amount : Int) (fresh_id tstamp : Nat) :
    ((acc.deposit amount fresh_id tstamp).id = acc.id ∧
     (acc.deposit amount fresh_id tstamp).name = acc.name ∧
     (acc.deposit amount fresh_id tstamp).account_number = acc.account_number ∧
     (acc.deposit amount fresh_id tstamp).created_at = acc.created_at ∧
     (acc.deposit amount fresh_id tstamp).is_closed = acc.is_closed) ∧
    ((acc.withdraw amount fresh_id tstamp).id = acc.id ∧
     (acc.withdraw amount fresh_id tstamp).name = acc.name ∧
     (acc.withdraw amount fresh_id tstamp).account_number = acc.account_number ∧
     (acc.withdraw amount fresh_id tstamp).created_at = acc.created_at ∧
     (acc.withdraw amount fresh_id tstamp).is_closed = acc.is_closed) ∧
    ((acc.close_account fresh_id tstamp).id = acc.id ∧
     (acc.close_account fresh_id tstamp).account_number = acc.account_number ∧
     (acc.close_account fresh_id tstamp).created_at = acc.created_at) := by
  by_cases h1 : acc.is_closed = true
  · refine ⟨?_, ?_, ?_⟩ <;>
      simp [BankAccount.deposit, BankAccount.withdraw, BankAccount.close_account,
        h1]
  · by_cases h2 : amount ≤ 0
    · refine ⟨?_, ?_, ?_⟩ <;>
        simp [BankAccount.deposit, BankAccount.withdraw,
          BankAccount.close_account, BankAccount.record_transaction, h1, h2]
    · by_cases h3 : acc.balance < amount <;>
        refine ⟨?_, ?_, ?_⟩ <;>
          simp [BankAccount.deposit, BankAccount.withdraw,
            BankAccount.close_account, BankAccount.record_transaction, h1, h2, h3]

/-- Helper: a single operation preserves non-negativity of the balance. -/
theorem apply_op_balance_nonneg (acc : BankAccount) (op : Op)
    (h : 0 ≤ acc.balance) : 0 ≤ (apply_op acc op).balance := by
  cases op with
  | deposit a i t =>
    by_cases h1 : acc.is_closed = true
    · simpa [apply_op, BankAccount.deposit, h1] using h
    · by_cases h2 : a ≤ 0
      · simpa [apply_op, BankAccount.deposit, BankAccount.record_transaction,
          h1, h2] using h
      · simp [apply_op, BankAccount.deposit, BankAccount.record_transaction,
          h1, h2]
        omega
  | withdraw a i t =>
    by_cases h1 : acc.is_closed = true
    · simpa [apply_op, BankAccount.withdraw, h1] using h
    · by_cases h2 : a ≤ 0
      · simpa [apply_op, BankAccount.withdraw, BankAccount.record_transaction,
          h1, h2] using h
      · by_cases h3 : acc.balance < a
        · simpa [apply_op, BankAccount.withdraw, BankAccount.record_transaction,
            h1, h2, h3] using h
        · simp [apply_op, BankAccount.withdraw, BankAccount.record_transaction,
            h1, h2, h3]
          omega
  | close i t =>
    by_cases h1 : acc.is_closed = true
    · simpa [apply_op, BankAccount.close_account, h1] using h
    · simp [apply_op, BankAccount.close_account, BankAccount.record_transaction,
        h1]

/-- Helper: a sequence of operations preserves non-negativity of the
balance. -/
theorem run_ops_balance_nonneg (acc : BankAccount) (ops : List Op)
    (h : 0 ≤ acc.balance) : 0 ≤ (run_ops acc ops).balance := by
  induction ops generalizing acc with
  | nil => exact h
  | cons op rest ih => exact ih (apply_op acc op) (apply_op_balance_nonneg acc op h)

/-- Helper: construction passes the initial balance through unchanged. -/
theorem create_account_balance (id : Nat) (name account_number : String)
    (b : Int) (created_at fresh_id tstamp : Nat) :
    (create_account id name account_number b created_at fresh_id
      tstamp).balance = b := by
  unfold create_account
  split <;> rfl

/-- Helper: a freshly constructed account is open. -/
theorem create_account_open (id : Nat) (name account_number : String)
    (b : Int) (created_at fresh_id tstamp : Nat) :
    (create_account id name account_number b created_at fresh_id
      tstamp).is_closed = false := by
  unfold create_account
  split <;> rfl

/-- Claim C1 counterexample: `create_account` accepts a negative initial
balance without validation, so right after creation (the empty operation
sequence) the balance is -5, violating `balance ≥ 0`. -/
theorem create_negative_balance_breaks_invariant :
    ¬ (0 ≤ (run_ops (create_account 0 "Mallory" "N3" (-5) 0 1 1) []).balance) := by
  decide

/-- Claim C1 (amended): for every account created with a non-negative
initial balance and every sequence of deposit, withdraw and close
operations, the balance is ≥ 0; the operation list is arbitrary, so this
holds after each operation of any sequence. -/
theorem balance_nonneg_of_nonneg_init (id : Nat) (name account_number : String)
    (b : Int) (created_at fresh_id tstamp : Nat) (ops : List Op) (h : 0 ≤ b) :
    0 ≤ (run_ops (create_account id name account_number b created_at fresh_id
      tstamp) ops).balance := by
  apply run_ops_balance_nonneg
  rw [create_account_balance]
  exact h

/-- Concrete instance of `balance_nonneg_of_nonneg_init`: the spec's own
example run (create with 100, deposit 50, failed withdraw 200, close). -/
theorem balance_nonneg_of_nonneg_init_witness :
    0 ≤ (run_ops (create_account 0 "Alice" "N1" 100 0 1 1)
      [Op.deposit 50 2 2, Op.withdraw 200 3 3, Op.close 4 4]).balance :=
  balance_nonneg_of_nonneg_init 0 "Alice" "N1" 100 0 1 1
    [Op.deposit 50 2 2, Op.withdraw 200 3 3, Op.close 4 4] (by decide)

/-- Helper: a single operation preserves the invariant that a closed
account has balance 0. -/
theorem apply_op_closed_zero (acc : BankAccount) (op : Op)
    (h : acc.is_closed = true → acc.balance = 0) :
    (apply_op acc op).is_closed = true → (apply_op acc op).balance = 0 := by
  cases op with
  | deposit a i t =>
    by_cases h1 : acc.is_closed = true
    · simpa [apply_op, BankAccount.deposit, h1] using h h1
    · by_cases h2 : a ≤ 0 <;>
        simp [apply_op, BankAccount.deposit, BankAccount.record_transaction,
          h1, h2]
  | withdraw a i t =>
    by_cases h1 : acc.is_closed = true
    · simpa [apply_op, BankAccount.withdraw, h1] using h h1
    · by_cases h2 : a ≤ 0
      · simp [apply_op, BankAccount.withdraw, BankAccount.record_transaction,
          h1, h2]
      · by_cases h3 : acc.balance < a <;>
          simp [apply_op, BankAccount.withdraw, BankAccount.record_transaction,
            h1, h2, h3]
  | close i t =>
    by_cases h1 : acc.is_closed = true
    · simpa [apply_op, BankAccount.close_account, h1] using h h1
    · simp [apply_op, BankAccount.close_account, BankAccount.record_transaction,
        h1]

/-- Helper: a sequence of operations preserves the invariant that a closed
account has balance 0. -/
theorem run_ops_closed_zero (acc : BankAccount) (ops : List Op)
    (h : acc.is_closed = true → acc.balance = 0) :
    (run_ops acc ops).is_closed = true → (run_ops acc ops).balance = 0 := by
  induction ops generalizing acc with
  | nil => exact h
  | cons op rest ih => exact ih (apply_op acc op) (apply_op_closed_zero acc op h)

/-- Claim C5: any account reached from creation by some operation sequence
and now closed has balance 0, and each of deposit, withdraw and close
returns its state entirely unchanged — the balance stays at 0 and no
transaction (completed or failed) is appended. -/
theorem closed_account_state_frozen (id : Nat) (name account_number : String)
    (b : Int) (created_at fresh_id0 tstamp0 : Nat) (ops : List Op)
    (amount : Int) (fresh_id tstamp : Nat)
    (h : (run_ops (create_account id name account_number b created_at fresh_id0
      tstamp0) ops).is_closed = true) :
    (run_ops (create_account id name account_number b created_at fresh_id0
      tstamp0) ops).balance = 0 ∧
    (run_ops (create_account id name account_number b created_at fresh_id0
      tstamp0) ops).deposit amount fresh_id tstamp =
      run_ops (create_account id name account_number b created_at fresh_id0
        tstamp0) ops ∧
    (run_ops (create_account id name account_number b created_at fresh_id0
      tstamp0) ops).withdraw amount fresh_id tstamp =
      run_ops (create_account id name account_number b created_at fresh_id0
        tstamp0) ops ∧
    (run_ops (create_account id name account_number b created_at fresh_id0
      tstamp0) ops).close_account fresh_id tstamp =
      run_ops (create_account id name account_number b created_at fresh_id0
        tstamp0) ops := by
  refine ⟨?_, ?_, ?_, ?_⟩
  · apply run_ops_closed_zero _ _ _ h
    intro hc
    rw [create_account_open] at hc
    exact absurd hc Bool.false_ne_true
  · simp [BankAccount.deposit, h]
  · simp [BankAccount.withdraw, h]
  · simp [BankAccount.close_account, h]

/-- Concrete instance of `closed_account_state_frozen`: an account created
with balance 100 and then closed has balance 0 and is frozen for deposit,
withdraw and close. -/
theorem closed_account_state_frozen_witness :
    (run_ops (create_account 0 "Alice" "N1" 100 0 1 1) [Op.close 2 2]).balance
      = 0 ∧
    (run_ops (create_account 0 "Alice" "N1" 100 0 1 1) [Op.close 2 2]).deposit
        5 3 3 =
      run_ops (create_account 0 "Alice" "N1" 100 0 1 1) [Op.close 2 2] ∧
    (run_ops (create_account 0 "Alice" "N1" 100 0 1 1) [Op.close 2 2]).withdraw
        5 3 3 =
      run_ops (create_account 0 "Alice" "N1" 100 0 1 1) [Op.close 2 2] ∧
    (run_ops (create_account 0 "Alice" "N1" 100 0 1 1)
        [Op.close 2 2]).close_account 3 3 =
      run_ops (create_account 0 "Alice" "N1" 100 0 1 1) [Op.close 2 2] :=
  closed_account_state_frozen 0 "Alice" "N1" 100 0 1 1 [Op.close 2 2] 5 3 3 rfl
